import Mathlib

/-!
Shallow embedding of the catcollector Django application
(src/main_app/views.py) and proofs about its view functions.

Records are modelled as Lean structures, the relational store as lists of
records plus a finite set for the Cat-Toy many-to-many join table, and each
view function as a pure Lean function from its inputs and the store to its
outputs and the updated store.
-/

namespace CatCollector

/-- A Cat row: name, breed, description, age and the owning user's id
(src/main_app/views.py lines 45-47 list the form fields; the owning user is
attached in CatCreate.form_valid). -/
structure Cat where
  id : Nat
  name : String
  breed : String
  description : String
  age : Nat
  user : Nat
deriving Repr, DecidableEq

/-- A Toy row: name and color (global, no owner). -/
structure Toy where
  id : Nat
  name : String
  color : String
deriving Repr, DecidableEq

/-- A Photo row: a url and the owning cat's id (views.py line 98). -/
structure Photo where
  url : String
  cat_id : Nat
deriving Repr, DecidableEq

/-- A Feeding row: date, meal and the owning cat's id (views.py lines 82-84). -/
structure Feeding where
  date : String
  meal : String
  cat_id : Nat
deriving Repr, DecidableEq

/-- The relational store: one list per table plus the Cat-Toy join table as a
finite set of (cat id, toy id) pairs, whose uniqueness constraint the
persistence layer enforces. -/
structure Store where
  cats : List Cat
  toys : List Toy
  photos : List Photo
  feedings : List Feeding
  catToys : Finset (Nat × Nat)
deriving DecidableEq

/-- A redirect response: target view name and the cat id routed to it. -/
structure Redirect where
  target : String
  cat_id : Nat
deriving Repr, DecidableEq

/-- views.py line 29: Cat.objects.filter(user=request.user) - the cats index
returns the rows whose user field equals the requesting user. -/
def cats_index (user : Nat) (s : Store) : List Cat :=
  s.cats.filter (fun c => c.user == user)

/-- cat.toys.all(): the Toy rows joined to the given cat through the
association table. -/
def catToysOf (s : Store) (cat_id : Nat) : List Toy :=
  s.toys.filter (fun t => decide ((cat_id, t.id) ∈ s.catToys))

/-- cat.toys.all().values_list(id): the ids of the associated toys of the cat. -/
def ownedToyIds (s : Store) (cat_id : Nat) : List Nat :=
  (catToysOf s cat_id).map Toy.id

/-- views.py line 36: Toy.objects.exclude(id__in = cat.toys.all().values_list(id)). -/
def toysCatDoesntHave (s : Store) (cat_id : Nat) : List Toy :=
  s.toys.filter (fun t => decide (t.id ∉ ownedToyIds s cat_id))

/-- The context rendered at cats/detail.html: the cat and the toys it does
not have (the feeding form instantiated there carries no data). -/
structure DetailPage where
  cat : Cat
  toys : List Toy
deriving Repr, DecidableEq

/-- views.py lines 33-43: cats_detail looks the cat up by id alone
(Cat.objects.get(id=cat_id)); the requesting user is never consulted.
Returns none when the id does not resolve (Cat.DoesNotExist). -/
def cats_detail (user : Nat) (cat_id : Nat) (s : Store) : Option DetailPage :=
  (s.cats.find? (fun c => c.id == cat_id)).map
    (fun cat => { cat := cat, toys := toysCatDoesntHave s cat_id })

/-- Modelled from the spec: the FeedingForm (src/main_app/forms.py is not
under src/). A feeding form carries a date and a meal type; validation
requires the date to be present and the meal to be one of the enumerated
meal types (breakfast/lunch/dinner). -/
structure FeedingFormData where
  date : String
  meal : String
deriving Repr, DecidableEq

/-- Modelled from the spec: the enumerated meal-type choices. -/
def mealChoices : List String := ["B", "L", "D"]

/-- Modelled from the spec: FeedingForm.is_valid() - both fields must be
well-formed (date present, meal among the choices). -/
def feedingFormIsValid (f : FeedingFormData) : Bool :=
  f.date != "" && mealChoices.contains f.meal

/-- views.py lines 75-85: add_feeding validates the form; only when valid
does it save a Feeding carrying the cat_id; it redirects to the detail view
in every case. -/
def add_feeding (cat_id : Nat) (form : FeedingFormData) (s : Store) :
    Store × Redirect :=
  if feedingFormIsValid form then
    ({ s with feedings :=
        s.feedings ++ [{ date := form.date, meal := form.meal, cat_id := cat_id }] },
     { target := "detail", cat_id := cat_id })
  else
    (s, { target := "detail", cat_id := cat_id })

/-- Python str.rfind helper on the character list: the greatest index at
which the character occurs, if any. -/
def rfindAux (c : Char) : List Char → Option Nat
  | [] => none
  | x :: xs =>
    match rfindAux c xs with
    | some j => some (j + 1)
    | none => if x == c then some 0 else none

/-- Python s.rfind(c): the greatest index of c in s, or -1 when absent. -/
def pyRfind (s : String) (c : Char) : Int :=
  match rfindAux c s.toList with
  | some i => (i : Int)
  | none => -1

/-- Python s[i:] with a possibly negative i: a negative index counts from
the end, clamped at 0. -/
def pySliceFrom (s : String) (i : Int) : String :=
  if 0 ≤ i then String.mk (s.toList.drop i.toNat)
  else String.mk (s.toList.drop (max 0 ((s.toList.length : Int) + i)).toNat)

/-- views.py line 93: the S3 key is uuid4().hex[:6] (a 6-character random
hex token, passed in here as `token`) plus photo_file.name sliced from its rfind of the dot. -/
def photoKey (token : String) (filename : String) : String :=
  token ++ pySliceFrom filename (pyRfind filename '.')

/-- An uploaded file: its name and its content bytes. -/
structure PhotoFile where
  name : String
  content : List Nat
deriving Repr, DecidableEq

/-- Django File truthiness (`if photo_file:`): request.FILES.get returns
None when the field is absent, and a File object is falsy when its name is
empty. -/
def fileTruthy : Option PhotoFile → Bool
  | none => false
  | some f => f.name != ""

/-- The environment configuration read by add_photo: the S3 bucket name and
public base URL, each possibly unset. -/
structure Env where
  s3_bucket : Option String
  s3_base_url : Option String
deriving Repr, DecidableEq

/-- Failure oracle for the external effects inside add_photo's try block:
whether s3.upload_fileobj raises and whether Photo.objects.create raises. -/
structure S3Oracle where
  uploadFails : Bool
  persistFails : Bool
deriving Repr, DecidableEq

/-- One invocation of s3.upload_fileobj: the bucket, key and file passed to
the object-storage client. -/
structure UploadCall where
  bucket : String
  key : String
  file : PhotoFile
deriving Repr, DecidableEq

/-- The exceptions that can arise inside add_photo's try block: a KeyError
from os.environ lookup, an upload failure, a database failure. -/
inductive PyError where
  | keyError : String → PyError
  | uploadError : PyError
  | dbError : PyError
deriving Repr, DecidableEq

/-- Outcome of add_photo's try block (views.py lines 94-98): the store after
it, the object-storage calls it issued, and the exception it raised, if any.
Effects already performed persist when a later step raises. -/
structure TryResult where
  store : Store
  uploads : List UploadCall
  err : Option PyError
deriving DecidableEq

/-- views.py lines 94-98: bucket = os.environ lookup of S3_BUCKET; upload the file
under the key; url = the f-string of base url, bucket, a slash and the key; create the
Photo row. Each step can raise; a raise skips the remaining steps. -/
def addPhotoTry (env : Env) (oracle : S3Oracle) (file : PhotoFile)
    (key : String) (cat_id : Nat) (s : Store) : TryResult :=
  match env.s3_bucket with
  | none => { store := s, uploads := [], err := some (PyError.keyError "S3_BUCKET") }
  | some bucket =>
    let call : UploadCall := { bucket := bucket, key := key, file := file }
    if oracle.uploadFails then
      { store := s, uploads := [call], err := some PyError.uploadError }
    else
      match env.s3_base_url with
      | none => { store := s, uploads := [call],
                  err := some (PyError.keyError "S3_BASE_URL") }
      | some base =>
        let url := base ++ bucket ++ "/" ++ key
        if oracle.persistFails then
          { store := s, uploads := [call], err := some PyError.dbError }
        else
          { store := { s with photos := s.photos ++ [{ url := url, cat_id := cat_id }] },
            uploads := [call], err := none }

/-- The full outcome of add_photo: the store, the object-storage calls made,
the lines printed, and the redirect returned. -/
structure AddPhotoResult where
  store : Store
  uploads : List UploadCall
  printed : List String
  redirect : Redirect
deriving DecidableEq

/-- views.py lines 87-101: add_photo. When the file is falsy nothing
happens; otherwise the key is computed, the try block runs, and any
exception it raises is caught by the bare except, which prints a message.
Either way the view returns redirect(detail, cat_id). -/
def add_photo (env : Env) (oracle : S3Oracle) (token : String) (cat_id : Nat)
    (file : Option PhotoFile) (s : Store) : AddPhotoResult :=
  match file with
  | none => { store := s, uploads := [], printed := [],
              redirect := { target := "detail", cat_id := cat_id } }
  | some f =>
    if f.name != "" then
      let key := photoKey token f.name
      let r := addPhotoTry env oracle f key cat_id s
      { store := r.store, uploads := r.uploads,
        printed := match r.err with
          | none => []
          | some _ => ["An error occurred uploading file to S3"],
        redirect := { target := "detail", cat_id := cat_id } }
    else
      { store := s, uploads := [], printed := [],
        redirect := { target := "detail", cat_id := cat_id } }

/-- views.py lines 105-108: assoc_toy. Cat.objects.get(id=cat_id) raises
DoesNotExist when the id does not resolve (modelled as none); otherwise the
pair is added to the join table (a set, so adding an existing pair changes
nothing) and the view redirects to the detail view. -/
def assoc_toy (cat_id : Nat) (toy_id : Nat) (s : Store) :
    Option (Store × Redirect) :=
  match s.cats.find? (fun c => c.id == cat_id) with
  | none => none
  | some _ =>
    some ({ s with catToys := insert (cat_id, toy_id) s.catToys },
          { target := "detail", cat_id := cat_id })

/-- A concrete store used to instantiate the theorems: two users (1 and 2)
owning one cat each, two toys, cat 1 associated with toy 1. -/
def sampleStore : Store where
  cats := [{ id := 1, name := "Fig", breed := "Tabby", description := "orange", age := 3, user := 1 },
           { id := 2, name := "Max", breed := "Siamese", description := "gray", age := 2, user := 2 }]
  toys := [{ id := 1, name := "Ball", color := "red" },
           { id := 2, name := "Mouse", color := "gray" }]
  photos := []
  feedings := []
  catToys := {(1, 1)}

/-- The store after associating toy 2 to cat 1 in sampleStore. -/
def sampleStoreAssoc : Store :=
  { sampleStore with catToys := insert (1, 2) sampleStore.catToys }

/-- The storage key as the spec words it (refinement target, written from
the claim's words rather than from the source): the token concatenated with
the substring of the filename strictly after the last dot. -/
def photoKeyClaimed (token : String) (filename : String) : String :=
  token ++ pySliceFrom filename (pyRfind filename '.' + 1)

/-- The photo url as the spec words it (refinement target, written from the
claim's words rather than from the source): the plain concatenation of the
base URL, the bucket name and the key. -/
def photoUrlClaimed (base : String) (bucket : String) (key : String) : String :=
  base ++ bucket ++ key

/- ### Theorems -/

/-- rfind finds nothing in a list that does not hold the character. -/
theorem rfindAux_eq_none (c : Char) (l : List Char) (h : c ∉ l) :
    rfindAux c l = none := by
  induction l with
  | nil => rfl
  | cons x xs ih =>
    have hx : ¬x = c := fun hxc => h (hxc ▸ List.mem_cons_self x xs)
    have hxs : c ∉ xs := fun hm => h (List.mem_cons_of_mem x hm)
    simp [rfindAux, ih hxs, hx]

/-- rfind locates the last dot: when the suffix after a dot holds no
further dot, the index returned is the position of that dot. -/
theorem rfindAux_last_dot (pre suf : List Char) (h : '.' ∉ suf) :
    rfindAux '.' (pre ++ '.' :: suf) = some pre.length := by
  induction pre with
  | nil => simp [rfindAux, rfindAux_eq_none '.' suf h]
  | cons x xs ih => simp [rfindAux, ih]

/-- Dropping all but one element of a nonempty list leaves its last
element. -/
theorem drop_length_sub_one (l : List Char) (h : l ≠ []) :
    l.drop (l.length - 1) = [l.getLast h] := by
  induction l with
  | nil => exact absurd rfl h
  | cons x xs ih =>
    cases xs with
    | nil => simp
    | cons y ys =>
      have hne : y :: ys ≠ [] := List.cons_ne_nil y ys
      have hdrop : (x :: y :: ys).drop ((x :: y :: ys).length - 1)
          = (y :: ys).drop ((y :: ys).length - 1) := by
        simp [List.drop_succ_cons]
      rw [hdrop, ih hne, List.getLast_cons hne]

/-- C1: cats_index returns exactly the cats owned by the requesting user,
so for distinct users u1 and u2, a cat owned by u2 never appears in
List(u1). -/
theorem cats_index_owner_scoped (u1 u2 : Nat) (s : Store) (c : Cat)
    (hne : u1 ≠ u2) (hc : c.user = u2) :
    (∀ d : Cat, d ∈ cats_index u1 s ↔ d ∈ s.cats ∧ d.user = u1) ∧
    c ∉ cats_index u1 s := by
  constructor
  · intro d
    simp [cats_index, List.mem_filter]
  · simp only [cats_index, List.mem_filter, beq_iff_eq, not_and]
    intro _ h1
    exact hne (h1.symm.trans hc)

/-- C1 witness: in the sample store, List(1) is characterized by ownership
and user 2's cat does not appear in it. -/
theorem cats_index_owner_scoped_witness :
    (∀ d : Cat, d ∈ cats_index 1 sampleStore ↔ d ∈ sampleStore.cats ∧ d.user = 1) ∧
    ({ id := 2, name := "Max", breed := "Siamese", description := "gray",
       age := 2, user := 2 } : Cat) ∉ cats_index 1 sampleStore :=
  cats_index_owner_scoped 1 2 sampleStore
    { id := 2, name := "Max", breed := "Siamese", description := "gray",
      age := 2, user := 2 } (by decide) rfl

/-- Every toy of the store lands, by id, in exactly one of the two sides of
the exclude query: the cat's own toys or the toys the cat does not have. -/
theorem toys_id_partition (s : Store) (cat_id : Nat) :
    ((toysCatDoesntHave s cat_id).map Toy.id).toFinset ∩
      ((catToysOf s cat_id).map Toy.id).toFinset = ∅ ∧
    ((toysCatDoesntHave s cat_id).map Toy.id).toFinset ∪
      ((catToysOf s cat_id).map Toy.id).toFinset = (s.toys.map Toy.id).toFinset := by
  constructor
  · ext i
    simp only [Finset.mem_inter, List.mem_toFinset, List.mem_map,
      Finset.not_mem_empty, iff_false, not_and]
    rintro ⟨t, ht, rfl⟩ ⟨t2, ht2, hid⟩
    have hnot : t.id ∉ ownedToyIds s cat_id := by
      have := (List.mem_filter.mp ht).2
      simpa [toysCatDoesntHave] using this
    exact hnot (List.mem_map.mpr ⟨t2, ht2, hid⟩)
  · ext i
    simp only [Finset.mem_union, List.mem_toFinset, List.mem_map]
    constructor
    · rintro (⟨t, ht, rfl⟩ | ⟨t, ht, rfl⟩)
      · exact ⟨t, (List.mem_filter.mp ht).1, rfl⟩
      · exact ⟨t, (List.mem_filter.mp ht).1, rfl⟩
    · rintro ⟨t, ht, rfl⟩
      by_cases hmem : t.id ∈ ownedToyIds s cat_id
      · rcases List.mem_map.mp hmem with ⟨t2, ht2, hid⟩
        exact Or.inr ⟨t2, ht2, hid⟩
      · refine Or.inl ⟨t, ?_, rfl⟩
        exact List.mem_filter.mpr ⟨ht, by simpa [toysCatDoesntHave] using hmem⟩

/-- C2: the toys-not-owned sequence of the rendered detail page is, by toy
id, the exact complement of the cat's associated toys within the full toy
table: the two id sets are disjoint and their union is the full id set. -/
theorem cats_detail_toys_complement (u cat_id : Nat) (s : Store) (p : DetailPage)
    (h : cats_detail u cat_id s = some p) :
    (p.toys.map Toy.id).toFinset ∩ ((catToysOf s cat_id).map Toy.id).toFinset = ∅ ∧
    (p.toys.map Toy.id).toFinset ∪ ((catToysOf s cat_id).map Toy.id).toFinset
      = (s.toys.map Toy.id).toFinset := by
  have hp : p.toys = toysCatDoesntHave s cat_id := by
    rcases Option.map_eq_some'.mp h with ⟨cat, _, hcat⟩
    rw [← hcat]
  rw [hp]
  exact toys_id_partition s cat_id

/-- C2 witness: in the sample store, the detail page of cat 1 partitions the
toy ids. -/
theorem cats_detail_toys_complement_witness :
    (((cats_detail 1 1 sampleStore).get (by decide)).toys.map Toy.id).toFinset ∩
      ((catToysOf sampleStore 1).map Toy.id).toFinset = ∅ ∧
    (((cats_detail 1 1 sampleStore).get (by decide)).toys.map Toy.id).toFinset ∪
      ((catToysOf sampleStore 1).map Toy.id).toFinset
      = (sampleStore.toys.map Toy.id).toFinset :=
  cats_detail_toys_complement 1 1 sampleStore
    ((cats_detail 1 1 sampleStore).get (by decide))
    (Option.some_get (by decide)).symm

/-- C3: cats_detail never consults the requesting user - two requests by
different users for the same cat id against the same store produce the same
page - and the page it returns holds the cat whose id was requested. -/
theorem cats_detail_user_independent (u1 u2 cat_id : Nat) (s : Store)
    (p : DetailPage) (h : cats_detail u1 cat_id s = some p) :
    cats_detail u1 cat_id s = cats_detail u2 cat_id s ∧ p.cat.id = cat_id := by
  refine ⟨rfl, ?_⟩
  rcases Option.map_eq_some'.mp h with ⟨cat, hfind, hcat⟩
  have hbeq := List.find?_some hfind
  have : cat.id = cat_id := by simpa using hbeq
  rw [← hcat]
  exact this

/-- C3 witness: in the sample store, user 1 and user 2 requesting cat 1 see
the same page, and the page holds cat 1. -/
theorem cats_detail_user_independent_witness :
    cats_detail 1 1 sampleStore = cats_detail 2 1 sampleStore ∧
    ((cats_detail 1 1 sampleStore).get (by decide)).cat.id = 1 :=
  cats_detail_user_independent 1 2 1 sampleStore
    ((cats_detail 1 1 sampleStore).get (by decide))
    (Option.some_get (by decide)).symm

/-- C4: when the feeding form fails validation, add_feeding leaves the store
untouched (no Feeding row is created) and still returns the redirect to the
detail view; no exception escapes (the function is total). -/
theorem add_feeding_invalid_noop (cat_id : Nat) (form : FeedingFormData)
    (s : Store) (h : feedingFormIsValid form = false) :
    add_feeding cat_id form s = (s, { target := "detail", cat_id := cat_id }) := by
  simp [add_feeding, h]

/-- C4 witness: a form with an empty date field creates nothing and
redirects. -/
theorem add_feeding_invalid_noop_witness :
    add_feeding 1 { date := "", meal := "B" } sampleStore
      = (sampleStore, { target := "detail", cat_id := 1 }) :=
  add_feeding_invalid_noop 1 { date := "", meal := "B" } sampleStore (by decide)

/-- C5: when the object-storage upload raises, add_photo catches it: the
store is unchanged (in particular no Photo row is persisted), and the view
still returns the redirect to the detail view; the failure surfaces only as
a printed log line, never as an error to the caller. -/
theorem add_photo_upload_failure_no_photo (env : Env) (oracle : S3Oracle)
    (token : String) (cat_id : Nat) (f : PhotoFile) (s : Store)
    (hf : f.name ≠ "") (hu : oracle.uploadFails = true) :
    (add_photo env oracle token cat_id (some f) s).store = s ∧
    (add_photo env oracle token cat_id (some f) s).redirect
      = { target := "detail", cat_id := cat_id } := by
  cases henv : env.s3_bucket <;>
    simp [add_photo, addPhotoTry, hf, hu, henv]

/-- C5 witness: with the bucket and base URL configured but the upload
failing, no photo is persisted and the redirect is returned. -/
theorem add_photo_upload_failure_no_photo_witness :
    (add_photo { s3_bucket := some "bkt", s3_base_url := some "http://media/" }
        { uploadFails := true, persistFails := false } "abcdef" 1
        (some { name := "a.png", content := [7] }) sampleStore).store = sampleStore ∧
    (add_photo { s3_bucket := some "bkt", s3_base_url := some "http://media/" }
        { uploadFails := true, persistFails := false } "abcdef" 1
        (some { name := "a.png", content := [7] }) sampleStore).redirect
      = { target := "detail", cat_id := 1 } :=
  add_photo_upload_failure_no_photo _ _ "abcdef" 1 _ sampleStore (by decide) rfl

/-- When the cat id resolves, assoc_toy inserts the pair into the join
table and redirects. -/
theorem assoc_toy_eq_of_find (cat_id toy_id : Nat) (s : Store) (c : Cat)
    (hfind : s.cats.find? (fun d => d.id == cat_id) = some c) :
    assoc_toy cat_id toy_id s
      = some ({ s with catToys := insert (cat_id, toy_id) s.catToys },
              { target := "detail", cat_id := cat_id }) := by
  unfold assoc_toy
  rw [hfind]

/-- C7: associating the same toy twice is idempotent - the second call
returns exactly the state and redirect of the first - and afterwards the
join table holds exactly one association for the pair. -/
theorem assoc_toy_idempotent (cat_id toy_id : Nat) (s s1 : Store)
    (r1 : Redirect) (h : assoc_toy cat_id toy_id s = some (s1, r1)) :
    assoc_toy cat_id toy_id s1 = some (s1, r1) ∧
    (s1.catToys.filter (fun q => q = (cat_id, toy_id))).card = 1 := by
  unfold assoc_toy at h
  cases hfind : s.cats.find? (fun c => c.id == cat_id) with
  | none => rw [hfind] at h; exact absurd h (by simp)
  | some c =>
    rw [hfind] at h
    have hpair := Option.some.inj h
    have hs1 : s1 = { s with catToys := insert (cat_id, toy_id) s.catToys } :=
      (congrArg Prod.fst hpair).symm
    have hr1 : r1 = { target := "detail", cat_id := cat_id } :=
      (congrArg Prod.snd hpair).symm
    have hmem : (cat_id, toy_id) ∈ s1.catToys := by
      rw [hs1]; exact Finset.mem_insert_self _ _
    constructor
    · have hfind1 : s1.cats.find? (fun d => d.id == cat_id) = some c := by
        rw [hs1]; exact hfind
      rw [assoc_toy_eq_of_find cat_id toy_id s1 c hfind1, hr1]
      have hins : ({ s1 with catToys := insert (cat_id, toy_id) s1.catToys } : Store)
          = s1 := by
        rw [hs1]
        simp [Finset.insert_idem]
      rw [hins]
    · rw [Finset.filter_eq' s1.catToys (cat_id, toy_id), if_pos hmem]
      exact Finset.card_singleton _

/-- C7 witness: associating toy 2 to cat 1 a second time reproduces the
state of the first association, which holds exactly one such pair. -/
theorem assoc_toy_idempotent_witness :
    assoc_toy 1 2 sampleStoreAssoc
      = some (sampleStoreAssoc, { target := "detail", cat_id := 1 }) ∧
    (sampleStoreAssoc.catToys.filter (fun q => q = (1, 2))).card = 1 :=
  assoc_toy_idempotent 1 2 sampleStore sampleStoreAssoc
    { target := "detail", cat_id := 1 } rfl

/-- C8: with an absent or empty file, add_photo is a no-op: the store is
unchanged, no object-storage call is made, nothing is printed, and only the
redirect to the detail view is returned. -/
theorem add_photo_falsy_noop (env : Env) (oracle : S3Oracle) (token : String)
    (cat_id : Nat) (file : Option PhotoFile) (s : Store)
    (h : fileTruthy file = false) :
    add_photo env oracle token cat_id file s
      = { store := s, uploads := [], printed := [],
          redirect := { target := "detail", cat_id := cat_id } } := by
  cases file with
  | none => rfl
  | some f =>
    have hname : (f.name != "") = false := by simpa [fileTruthy] using h
    simp [add_photo, hname]

/-- C8 witness: an absent file leads to a pure redirect with no effect. -/
theorem add_photo_falsy_noop_witness :
    add_photo { s3_bucket := some "bkt", s3_base_url := some "http://media/" }
        { uploadFails := false, persistFails := false } "abcdef" 1 none sampleStore
      = { store := sampleStore, uploads := [], printed := [],
          redirect := { target := "detail", cat_id := 1 } } :=
  add_photo_falsy_noop _ _ "abcdef" 1 none sampleStore rfl

/-- C10: once a truthy file is present, add_photo never propagates an
exception: for every configuration (bucket or base URL possibly missing)
and every failure oracle (upload or persistence possibly raising), the view
returns the redirect to the detail view, and a failure shows up only as the
printed log line. -/
theorem add_photo_never_raises (env : Env) (oracle : S3Oracle) (token : String)
    (cat_id : Nat) (f : PhotoFile) (s : Store) (hf : f.name ≠ "") :
    (add_photo env oracle token cat_id (some f) s).redirect
      = { target := "detail", cat_id := cat_id } ∧
    ((add_photo env oracle token cat_id (some f) s).printed = [] ∨
     (add_photo env oracle token cat_id (some f) s).printed
       = ["An error occurred uploading file to S3"]) := by
  constructor
  · simp [add_photo, hf]
  · simp only [add_photo, hf, bne_iff_ne, ne_eq, not_false_eq_true, if_true]
    cases (addPhotoTry env oracle f (photoKey token f.name) cat_id s).err <;> simp

/-- C10 witness: even with no bucket configured the view redirects, logging
the swallowed failure. -/
theorem add_photo_never_raises_witness :
    (add_photo { s3_bucket := none, s3_base_url := none }
        { uploadFails := false, persistFails := false } "abcdef" 1
        (some { name := "a.png", content := [7] }) sampleStore).redirect
      = { target := "detail", cat_id := 1 } ∧
    ((add_photo { s3_bucket := none, s3_base_url := none }
        { uploadFails := false, persistFails := false } "abcdef" 1
        (some { name := "a.png", content := [7] }) sampleStore).printed = [] ∨
     (add_photo { s3_bucket := none, s3_base_url := none }
        { uploadFails := false, persistFails := false } "abcdef" 1
        (some { name := "a.png", content := [7] }) sampleStore).printed
       = ["An error occurred uploading file to S3"]) :=
  add_photo_never_raises _ _ "abcdef" 1 _ sampleStore (by decide)

/-- C9: on a filename with no dot, the key computation does not fail:
rfind yields -1, Python slicing from -1 takes the last character, so the
key is the token followed by exactly the last character of the filename. -/
theorem photoKey_no_dot (token : String) (name : String)
    (h1 : name.toList ≠ []) (h2 : '.' ∉ name.toList) :
    pyRfind name '.' = -1 ∧
    photoKey token name = token ++ String.mk [name.toList.getLast h1] := by
  have hr : pyRfind name '.' = -1 := by
    unfold pyRfind
    rw [rfindAux_eq_none '.' name.toList h2]
  refine ⟨hr, ?_⟩
  unfold photoKey pySliceFrom
  rw [hr, if_neg (by norm_num)]
  have hlen : 1 ≤ name.toList.length := List.length_pos.mpr h1
  have htn : (max 0 ((name.toList.length : Int) + -1)).toNat
      = name.toList.length - 1 := by omega
  rw [htn, drop_length_sub_one name.toList h1]

/-- C9 witness: for the dotless filename "abc" the key is the token plus
the character c. -/
theorem photoKey_no_dot_witness :
    pyRfind "abc" '.' = -1 ∧
    photoKey "abcdef" "abc"
      = "abcdef" ++ String.mk ["abc".toList.getLast (by decide)] :=
  photoKey_no_dot "abcdef" "abc" (by decide) (by decide)

/-- C6 counterexample: at token "abcdef" and filename "a.png" the key the
code computes keeps the dot, unlike the claim's key (the substring strictly
after the last dot); and on a successful upload the persisted url holds a
slash between bucket and key, so it differs from the claimed plain
concatenation even at the code's own key. -/
theorem photoKey_claim_counterexample :
    photoKey "abcdef" "a.png" ≠ photoKeyClaimed "abcdef" "a.png" ∧
    (add_photo { s3_bucket := some "bkt", s3_base_url := some "http://media/" }
        { uploadFails := false, persistFails := false } "abcdef" 1
        (some { name := "a.png", content := [7] }) sampleStore).store.photos
      ≠ sampleStore.photos ++
        [{ url := photoUrlClaimed "http://media/" "bkt" (photoKey "abcdef" "a.png"),
           cat_id := 1 }] := by
  decide

/-- C6 amended: the key is the token concatenated with the substring of the
filename from the last dot on (dot included), and on upload success the
persisted Photo's url is the base URL, the bucket, a slash and the key
concatenated. -/
theorem add_photo_key_and_url (env : Env) (oracle : S3Oracle) (token : String)
    (cat_id : Nat) (name : String) (content : List Nat) (pre suf : List Char)
    (bucket base : String) (s : Store)
    (hb : env.s3_bucket = some bucket) (hbase : env.s3_base_url = some base)
    (hu : oracle.uploadFails = false) (hp : oracle.persistFails = false)
    (hname : name.toList = pre ++ '.' :: suf) (hsuf : '.' ∉ suf) :
    photoKey token name = token ++ "." ++ String.mk suf ∧
    (add_photo env oracle token cat_id
        (some { name := name, content := content }) s).store.photos
      = s.photos ++
        [{ url := base ++ bucket ++ "/" ++ photoKey token name, cat_id := cat_id }] := by
  have hfind : pyRfind name '.' = (pre.length : Int) := by
    unfold pyRfind
    rw [hname, rfindAux_last_dot pre suf hsuf]
  have hkey : photoKey token name = token ++ "." ++ String.mk suf := by
    unfold photoKey pySliceFrom
    rw [hfind, if_pos (by positivity), Int.toNat_natCast]
    have hdata : name.toList = pre ++ '.' :: suf := hname
    rw [hdata, List.drop_left]
    apply String.ext
    simp [String.data_append]
  have hne : (name != "") = true := by
    refine bne_iff_ne.mpr fun heq => ?_
    rw [heq] at hname
    exact absurd hname.symm (by simp)
  refine ⟨hkey, ?_⟩
  simp [add_photo, hne, addPhotoTry, hb, hbase, hu, hp]

/-- C6 amended witness: uploading "a.png" under token "abcdef" with bucket
"bkt" and base url "http://media/" persists the photo at
"http://media/bkt/abcdef.png". -/
theorem add_photo_key_and_url_witness :
    photoKey "abcdef" "a.png" = "abcdef" ++ "." ++ String.mk ['p', 'n', 'g'] ∧
    (add_photo { s3_bucket := some "bkt", s3_base_url := some "http://media/" }
        { uploadFails := false, persistFails := false } "abcdef" 1
        (some { name := "a.png", content := [7] }) sampleStore).store.photos
      = sampleStore.photos ++
        [{ url := "http://media/" ++ "bkt" ++ "/" ++ photoKey "abcdef" "a.png",
           cat_id := 1 }] :=
  add_photo_key_and_url
    { s3_bucket := some "bkt", s3_base_url := some "http://media/" }
    { uploadFails := false, persistFails := false } "abcdef" 1 "a.png" [7]
    ['a'] ['p', 'n', 'g'] "bkt" "http://media/" sampleStore
    rfl rfl rfl rfl (by decide) (by decide)

end CatCollector
